import Mathlib

/-!
Shallow embedding of the aws-sso-env tool (src/main.rs) in Lean 4, with
proofs of the specified properties.

Modelling conventions:
* Rust `String` is Lean `String`; machine integers are `Nat`/`Int` with
  explicit reduction modulo `2 ^ 32` (SHA1 words) where overflow matters.
* `OffsetDateTime` (the `time` crate) is modelled as `Int`, the number of
  nanoseconds since the Unix epoch; its chronological order is the order
  on `Int`.  `OffsetDateTime.from_unix_timestamp_nanos` is partial: it
  fails outside the representable calendar range (year -9999 to 9999),
  which we reproduce with exact bounds.
* External library behaviour that the program only invokes (RFC3339
  parsing/formatting of the `time` crate, `serde_json` deserialization)
  is a parameter of the model (a function supplied in the `World`), since
  the repository contains no code for it; every claim below is about how
  the program uses the result, never about the parser internals.
* The `sha1` crate's `hexdigest` is embedded in full (the cache-filename
  convention is load-bearing for interoperability, per the spec).
* Effects are made explicit: the filesystem, the remote response and the
  clock are fields of a `World`; `mainRun` returns the process outcome,
  the standard-output lines, the log events and the observed outcome of
  the (at most one) outbound fetch.
-/

/-! ## SHA1 (model of the `sha1` crate's `Sha1::from(...).hexdigest()`) -/

/-- Reduce to a 32-bit word. -/
def w32 (n : Nat) : Nat := n % 4294967296

/-- Rotate a 32-bit word left by `s` bits (for `n < 2 ^ 32`). -/
def rotl (s n : Nat) : Nat := w32 (n <<< s) ||| (n >>> (32 - s))

/-- UTF-8 encoding of a single code point, as a list of bytes. -/
def utf8EncodeChar (c : Nat) : List Nat :=
  if c < 128 then [c]
  else if c < 2048 then
    [192 ||| (c >>> 6), 128 ||| (c &&& 63)]
  else if c < 65536 then
    [224 ||| (c >>> 12), 128 ||| ((c >>> 6) &&& 63), 128 ||| (c &&& 63)]
  else
    [240 ||| (c >>> 18), 128 ||| ((c >>> 12) &&& 63),
     128 ||| ((c >>> 6) &&& 63), 128 ||| (c &&& 63)]

/-- The UTF-8 bytes of a string (Rust strings are UTF-8). -/
def strBytes (s : String) : List Nat := s.data.flatMap (fun c => utf8EncodeChar c.toNat)

/-- `k` bytes of `n`, big-endian. -/
def bytesBE : Nat → Nat → List Nat
  | 0, _ => []
  | k + 1, n => bytesBE k (n / 256) ++ [n % 256]

/-- SHA1 padding: append 0x80, zeros to 56 mod 64, then the 64-bit
big-endian bit length. -/
def sha1Pad (m : List Nat) : List Nat :=
  m ++ [128] ++ List.replicate ((119 - m.length % 64) % 64) 0 ++ bytesBE 8 (8 * m.length)

/-- Group bytes into 32-bit words, big-endian. -/
def toWordsBE : List Nat → List Nat
  | a :: b :: c :: d :: rest => (((a * 256 + b) * 256 + c) * 256 + d) :: toWordsBE rest
  | _ => []

/-- Split a list into 64-element chunks (fuel-structured so that it
reduces definitionally; `fuel = l.length` suffices since every step
consumes at least one element). -/
def chunks64Aux : Nat → List Nat → List (List Nat)
  | 0, _ => []
  | _, [] => []
  | fuel + 1, a :: l => ((a :: l).take 64) :: chunks64Aux fuel ((a :: l).drop 64)

/-- Split a list into 64-element chunks. -/
def chunks64 (l : List Nat) : List (List Nat) := chunks64Aux l.length l

/-- Extend the 16-word schedule by `k` more words:
`w[j] = rotl1 (w[j-3] xor w[j-8] xor w[j-14] xor w[j-16])`. -/
def sha1ExtendAux : Nat → List Nat → List Nat
  | 0, ws => ws
  | k + 1, ws =>
    let j := ws.length
    sha1ExtendAux k
      (ws ++ [rotl 1 ((ws.getD (j - 3) 0) ^^^ (ws.getD (j - 8) 0) ^^^
                      (ws.getD (j - 14) 0) ^^^ (ws.getD (j - 16) 0))])

/-- The 80-word message schedule for one chunk. -/
def sha1Schedule (chunk : List Nat) : List Nat := sha1ExtendAux 64 (toWordsBE chunk)

/-- The round function of SHA1. -/
def sha1F (i b c d : Nat) : Nat :=
  if i < 20 then (b &&& c) ||| ((b ^^^ 4294967295) &&& d)
  else if i < 40 then b ^^^ c ^^^ d
  else if i < 60 then (b &&& c) ||| (b &&& d) ||| (c &&& d)
  else b ^^^ c ^^^ d

/-- The round constants of SHA1. -/
def sha1K (i : Nat) : Nat :=
  if i < 20 then 1518500249
  else if i < 40 then 1859775393
  else if i < 60 then 2400959708
  else 3395469782

/-- Run the 80 rounds over the schedule. -/
def sha1Rounds : Nat → List Nat → Nat × Nat × Nat × Nat × Nat → Nat × Nat × Nat × Nat × Nat
  | _, [], st => st
  | i, w :: rest, (a, b, c, d, e) =>
    sha1Rounds (i + 1) rest
      (w32 (rotl 5 a + sha1F i b c d + e + sha1K i + w), a, rotl 30 b, c, d)

/-- The five-word SHA1 state. -/
structure Sha1State where
  h0 : Nat
  h1 : Nat
  h2 : Nat
  h3 : Nat
  h4 : Nat
deriving DecidableEq, Repr

/-- Compress one 64-byte chunk into the state. -/
def sha1Compress (st : Sha1State) (chunk : List Nat) : Sha1State :=
  match sha1Rounds 0 (sha1Schedule chunk) (st.h0, st.h1, st.h2, st.h3, st.h4) with
  | (a, b, c, d, e) =>
    ⟨w32 (st.h0 + a), w32 (st.h1 + b), w32 (st.h2 + c), w32 (st.h3 + d), w32 (st.h4 + e)⟩

/-- The SHA1 initial state. -/
def sha1Init : Sha1State := ⟨1732584193, 4023233417, 2562383102, 271733878, 3285377520⟩

/-- The five words of the SHA1 digest of a byte string. -/
def sha1Words (msg : List Nat) : List Nat :=
  match (chunks64 (sha1Pad msg)).foldl sha1Compress sha1Init with
  | ⟨a, b, c, d, e⟩ => [a, b, c, d, e]

/-- The sixteen lowercase hexadecimal digit characters. -/
def hexDigits : List Char := "0123456789abcdef".data

/-- The lowercase hex digit of `n % 16`. -/
def hexDigit (n : Nat) : Char := hexDigits.getD (n % 16) '0'

/-- The eight lowercase hex characters of a 32-bit word, big-endian. -/
def word8Hex (w : Nat) : List Char :=
  [hexDigit (w >>> 28), hexDigit (w >>> 24), hexDigit (w >>> 20), hexDigit (w >>> 16),
   hexDigit (w >>> 12), hexDigit (w >>> 8), hexDigit (w >>> 4), hexDigit w]

/-- `Sha1::from(s).hexdigest()`: the 40-character lowercase hex SHA1 digest. -/
def sha1Hexdigest (s : String) : String :=
  String.mk ((sha1Words (strBytes s)).flatMap word8Hex)

/-- src/main.rs lines 192-195: the cache file name,
`format!("{}.json", Sha1::from(sso_start_url).hexdigest())`. -/
def cacheFilename (startUrl : String) : String := sha1Hexdigest startUrl ++ ".json"

/-! ## Data model (src/main.rs lines 21-64) -/

/-- The ASCII single-quote character as a string; several log and error
messages of the program quote names with it. -/
def squote : String := String.mk [Char.ofNat 39]

/-- A validated SSO profile (src/main.rs lines 31-39). -/
structure SsoProfile where
  profile_name : String
  region : String
  sso_account_id : String
  sso_region : String
  sso_role_name : String
  sso_start_url : String
deriving DecidableEq, Repr

/-- A cached SSO token as deserialized from the cache file
(src/main.rs lines 41-48); `expires_at` is kept in its serialized string
form, exactly as in the Rust struct. -/
structure CachedSsoToken where
  access_token : String
  expires_at : String
  region : String
  start_url : String
deriving DecidableEq, Repr

/-- Fetched SSO credentials (src/main.rs lines 50-57); `expires_at` is an
`OffsetDateTime`, modelled as nanoseconds since the Unix epoch. -/
structure SsoCredentials where
  access_key_id : String
  secret_access_key : String
  session_token : String
  expires_at : Int
deriving DecidableEq, Repr

/-- The `RoleCredentials` shape of the SDK response as the program
consumes it (src/main.rs lines 235-248): the three secret fields are
optional in the SDK struct, while `expiration` is a plain `i64`. -/
structure RoleCredentials where
  access_key_id : Option String
  secret_access_key : Option String
  session_token : Option String
  expiration : Int
deriving DecidableEq, Repr

/-! ## OffsetDateTime conversion (the `time` crate) -/

/-- Nanoseconds since the epoch of -9999-01-01T00:00:00Z, the smallest
`OffsetDateTime` the `time` crate represents. -/
def odtMinNanos : Int := -377705203200000000000

/-- Nanoseconds since the epoch of 9999-12-31T23:59:59.999999999Z, the
largest `OffsetDateTime` the `time` crate represents. -/
def odtMaxNanos : Int := 253402300799999999999

/-- `OffsetDateTime::from_unix_timestamp_nanos`: succeeds exactly when
the instant lies within the representable calendar range. -/
def fromUnixTimestampNanos (n : Int) : Option Int :=
  if odtMinNanos ≤ n ∧ n ≤ odtMaxNanos then some n else none

/-! ## ProfileResolver (src/main.rs lines 133-175, `get_sso_profile`) -/

/-- An AWS config profile: property lookup by key (the order of the
checks in `get_sso_profile` is the struct-literal order of the source). -/
abbrev ConfigProfile := List (String × String)

/-- `Profile::get` of the aws-config profile set. -/
def ConfigProfile.get (p : ConfigProfile) (k : String) : Option String :=
  (p.find? (fun kv => kv.1 == k)).map (fun kv => kv.2)

/-- The loaded profile set, addressable by profile name. -/
abbrev ProfileSet := List (String × ConfigProfile)

/-- `ProfileSet::get_profile`. -/
def ProfileSet.getProfile (ps : ProfileSet) (name : String) : Option ConfigProfile :=
  (ps.find? (fun np => np.1 == name)).map (fun np => np.2)

/-- `get_sso_profile` (src/main.rs lines 133-175): look the profile up by
name and project the five required properties, failing with the exact
source error message when the profile or a property is absent. -/
def get_sso_profile (profiles : ProfileSet) (profile_name : String) :
    Except String SsoProfile :=
  match profiles.getProfile profile_name with
  | none => .error ("profile " ++ squote ++ profile_name ++ squote ++ " not found")
  | some profile =>
    match profile.get "region" with
    | none => .error "profile must have region property set"
    | some region =>
      match profile.get "sso_account_id" with
      | none => .error "profile must have sso_account_id property set"
      | some sso_account_id =>
        match profile.get "sso_region" with
        | none => .error "profile must have sso_region property set"
        | some sso_region =>
          match profile.get "sso_role_name" with
          | none => .error "profile must have sso_role_name property set"
          | some sso_role_name =>
            match profile.get "sso_start_url" with
            | none => .error "profile must have sso_start_url property set"
            | some sso_start_url =>
              .ok ⟨profile_name, region, sso_account_id, sso_region,
                   sso_role_name, sso_start_url⟩

/-! ## TokenCache (src/main.rs lines 177-216, `load_cached_token`) -/

/-- A log event on the diagnostic stream (`log::debug!`, `log::error!`,
`log::info!`); standard output is modelled separately. -/
inductive LogEvent where
  | debug (msg : String)
  | error (msg : String)
  | info (msg : String)
deriving DecidableEq, Repr

/-- The filesystem as `load_cached_token` observes it: whether the fixed
cache directory `~/.aws/sso/cache` is a directory, which file names under
it are files, and the content a read of a file name yields (`none` when
`tokio::fs::read_to_string` fails). -/
structure CacheFs where
  cacheDirIsDir : Bool
  isFile : String → Bool
  readToString : String → Option String

/-- `load_cached_token` (src/main.rs lines 177-216).  `deserialize`
models `serde_json::from_str::<CachedSsoToken>`.  Returns the optional
token together with the emitted log events; log messages elide the
interpolated filesystem path but keep the source wording. -/
def load_cached_token (fs : CacheFs)
    (deserialize : String → Except String CachedSsoToken)
    (sso_profile : SsoProfile) : Option CachedSsoToken × List LogEvent :=
  if !fs.cacheDirIsDir then
    (none, [.debug "SSO credentials cache directory does not exist"])
  else
    let cache_file := cacheFilename sso_profile.sso_start_url
    if !fs.isFile cache_file then
      (none, [.debug ("Cache file for profile " ++ squote ++
                      sso_profile.profile_name ++ squote ++ " does not exist.")])
    else
      match fs.readToString cache_file with
      | none => (none, [])
      | some s =>
        match deserialize s with
        | .error e => (none, [.error ("Unable to deserialize cached SSO token: " ++ e)])
        | .ok token => (some token, [])

/-! ## CredentialFetcher (src/main.rs lines 218-256, `fetch_sso_credentials`) -/

/-- `fetch_sso_credentials` (src/main.rs lines 218-256).  `response`
models the outcome of the single `get_role_credentials` call: a transport
or service error, or a reply whose `role_credentials` field may be
absent.  The profile and token parameters populate the request
(account id, role name, access token, region) and do not influence the
normalization, which is shown by their absence from the body. -/
def fetch_sso_credentials (response : Except String (Option RoleCredentials))
    (_profile : SsoProfile) (_token : CachedSsoToken) :
    Except String SsoCredentials :=
  match response with
  | .error e => .error e
  | .ok none => .error "response did not contain any credentials"
  | .ok (some rc) =>
    match rc.access_key_id with
    | none => .error "response did not contain an access key id"
    | some ak =>
      match rc.secret_access_key with
      | none => .error "response did not contain a secret access key"
      | some sk =>
        match rc.session_token with
        | none => .error "response did not contain a session token"
        | some tok =>
          match fromUnixTimestampNanos rc.expiration with
          | none => .error "unable to parse expiration date from role credentials"
          | some exp => .ok ⟨ak, sk, tok, exp⟩

/-! ## Top-level pipeline (src/main.rs lines 66-131, `main`) -/

/-- Everything outside the program that an execution can observe: the
profile store, the cache filesystem, the serde and RFC3339 codecs of the
external crates, the clock, and the outcome of the remote call. -/
structure World where
  profiles : ProfileSet
  fs : CacheFs
  deserializeToken : String → Except String CachedSsoToken
  parseRfc3339 : String → Option Int
  formatRfc3339 : Int → Option String
  now : Int
  response : Except String (Option RoleCredentials)

/-- The observable outcome of one execution: the process result (`Ok` is
exit status 0, `error` a nonzero exit), the lines printed to standard
output, the log events, and the outcome of the outbound fetch (`none`
when no remote call was made). -/
structure RunResult where
  exit : Except String Unit
  stdout : List String
  log : List LogEvent
  fetchOutcome : Option (Except String SsoCredentials)

/-- `main` (src/main.rs lines 66-131), with the effects made explicit. -/
def mainRun (w : World) (profile_name : String) : RunResult :=
  match get_sso_profile w.profiles profile_name with
  | .error e => ⟨.error e, [], [], none⟩
  | .ok sso_profile =>
    let log0 := [LogEvent.debug "Found SSO profile"]
    match load_cached_token w.fs w.deserializeToken sso_profile with
    | (none, loadLog) => ⟨.ok (), [], log0 ++ loadLog, none⟩
    | (some cached_sso_token, loadLog) =>
      let log1 := log0 ++ loadLog ++ [LogEvent.debug "Loaded cached SSO token."]
      match w.parseRfc3339 cached_sso_token.expires_at with
      | none => ⟨.ok (), [], log1, none⟩
      | some expires_at =>
        match w.formatRfc3339 expires_at with
        | none => ⟨.error "unable to format date-time as RFC3339", [], log1, none⟩
        | some encoded =>
          if w.now > expires_at then
            ⟨.ok (), [],
             log1 ++ [LogEvent.error ("Cached SSO token is expired as of " ++ encoded),
                      LogEvent.info ("Run " ++ squote ++ "aws --profile " ++ profile_name ++
                                     " sso login" ++ squote ++ " to refresh credentials.")],
             none⟩
          else
            let log2 := log1 ++
              [LogEvent.debug ("Cached SSO token is still valid, expires at " ++ encoded)]
            match fetch_sso_credentials w.response sso_profile cached_sso_token with
            | .error e =>
              ⟨.error e, [],
               log2 ++ [LogEvent.error ("Unable to fetch SSO credentials using cached SSO token: " ++ e)],
               some (.error e)⟩
            | .ok credentials =>
              ⟨.ok (),
               ["# expires at " ++ encoded,
                "export AWS_ACCESS_KEY_ID=" ++ credentials.access_key_id,
                "export AWS_SECRET_ACCESS_KEY=" ++ credentials.secret_access_key,
                "export AWS_SESSION_TOKEN=" ++ credentials.session_token],
               log2 ++ [LogEvent.info "Obtained SSO credentials, printing to standard output:"],
               some (.ok credentials)⟩

/-- The process exit status: 0 for `Ok(())`, nonzero for an `anyhow`
error bubbling out of `main`. -/
def exitCode (r : RunResult) : Nat :=
  match r.exit with
  | .ok _ => 0
  | .error _ => 1

/-! ## Concrete fixtures used to exercise the theorems -/

/-- A fully populated SSO profile section. -/
def devProfile : ConfigProfile :=
  [("region", "us-east-1"), ("sso_account_id", "123456789012"),
   ("sso_region", "us-east-1"), ("sso_role_name", "Admin"),
   ("sso_start_url", "https://example.awsapps.com/start")]

/-- The resolved form of `devProfile` under the name `dev`. -/
def devSsoProfile : SsoProfile :=
  ⟨"dev", "us-east-1", "123456789012", "us-east-1", "Admin",
   "https://example.awsapps.com/start"⟩

/-- A profile store holding only `dev`. -/
def devStore : ProfileSet := [("dev", devProfile)]

/-- A cached token fixture. -/
def devToken : CachedSsoToken :=
  ⟨"tok", "2026-01-01T00:00:00Z", "us-east-1", "https://example.awsapps.com/start"⟩

/-- A filesystem on which the cache directory and every file exist and
read back a fixed body. -/
def okFs : CacheFs := ⟨true, fun _ => true, fun _ => some "cached"⟩

/-- A remote reply carrying all fields. -/
def okRc : RoleCredentials := ⟨some "AKID", some "SECRET", some "SESSTOK", 1000000000⟩

/-- A world on which every stage succeeds: the token parses to instant
100 and the clock reads 0. -/
def okWorld : World :=
  { profiles := devStore
    fs := okFs
    deserializeToken := fun _ => .ok devToken
    parseRfc3339 := fun _ => some 100
    formatRfc3339 := fun _ => some "2026-01-01T00:00:00Z"
    now := 0
    response := .ok (some okRc) }

/-- `okWorld` at the boundary instant: the clock reads exactly the parsed
`expires_at`. -/
def tieWorld : World := { okWorld with now := 100 }

/-- `okWorld` with a clock past the token expiry. -/
def expiredWorld : World := { okWorld with now := 200 }

/-- `okWorld` whose cached token timestamp fails to parse. -/
def noParseWorld : World := { okWorld with parseRfc3339 := fun _ => none }

/-- `okWorld` with no cache file. -/
def absentWorld : World := { okWorld with fs := ⟨true, fun _ => false, fun _ => none⟩ }

/-- `okWorld` whose cache file content does not deserialize. -/
def malformedWorld : World :=
  { okWorld with deserializeToken := fun _ => .error "expected value at line 1" }

/-- `okWorld` with an empty profile store. -/
def notFoundWorld : World := { okWorld with profiles := [] }

/-- `okWorld` whose remote call fails in transport. -/
def transportErrWorld : World := { okWorld with response := .error "dispatch failure" }

set_option maxRecDepth 40000

/-! ## Helper lemmas -/

theorem hexDigit_mem (n : Nat) : hexDigit n ∈ hexDigits := by
  have h : n % 16 < 16 := Nat.mod_lt _ (by norm_num)
  unfold hexDigit
  generalize hk : n % 16 = k at h ⊢
  interval_cases k <;> decide

theorem word8Hex_mem (w : Nat) : ∀ c ∈ word8Hex w, c ∈ hexDigits := by
  intro c hc
  simp only [word8Hex, List.mem_cons, List.not_mem_nil, or_false] at hc
  rcases hc with h | h | h | h | h | h | h | h <;> (subst h; exact hexDigit_mem _)

theorem sha1Words_eq (msg : List Nat) : ∃ a b c d e, sha1Words msg = [a, b, c, d, e] := by
  unfold sha1Words
  rcases (chunks64 (sha1Pad msg)).foldl sha1Compress sha1Init with ⟨a, b, c, d, e⟩
  exact ⟨a, b, c, d, e, rfl⟩

theorem sha1Hexdigest_length (s : String) : (sha1Hexdigest s).length = 40 := by
  obtain ⟨a, b, c, d, e, h⟩ := sha1Words_eq (strBytes s)
  simp [sha1Hexdigest, h, String.length, word8Hex]

theorem sha1Hexdigest_mem (s : String) :
    ∀ c ∈ (sha1Hexdigest s).data, c ∈ hexDigits := by
  obtain ⟨a, b, c, d, e, h⟩ := sha1Words_eq (strBytes s)
  intro ch hch
  simp only [sha1Hexdigest, h, List.flatMap_cons, List.flatMap_nil, List.append_nil,
    List.mem_append] at hch
  rcases hch with hch | hch | hch | hch | hch <;> exact word8Hex_mem _ ch hch

/-- Sanity: the embedded SHA1 agrees with the standard digest of "abc". -/
theorem sha1Hexdigest_abc :
    sha1Hexdigest "abc" = "a9993e364706816aba3e25717850c26c9cd0d89d" := by decide

/-! ## Claim C7: cache file name -/

/-- C7: for every profile, the cache file name is the lowercase
hexadecimal SHA1 digest of the profile's sso_start_url followed by
".json"; it is a deterministic function (identical sso_start_url values
yield the identical filename), and `load_cached_token` consults the
filesystem only at that name, so two filesystems agreeing there are
indistinguishable to it. -/
theorem c7_cache_filename_sha1 (u1 u2 : String) (h : u1 = u2) :
    cacheFilename u1 = cacheFilename u2 ∧
    cacheFilename u1 = sha1Hexdigest u1 ++ ".json" ∧
    (sha1Hexdigest u1).length = 40 ∧
    (∀ c ∈ (sha1Hexdigest u1).data, c ∈ hexDigits) ∧
    (∀ fs1 fs2 des p, p.sso_start_url = u1 →
      fs1.cacheDirIsDir = fs2.cacheDirIsDir →
      fs1.isFile (cacheFilename u1) = fs2.isFile (cacheFilename u1) →
      fs1.readToString (cacheFilename u1) = fs2.readToString (cacheFilename u1) →
      load_cached_token fs1 des p = load_cached_token fs2 des p) := by
  refine ⟨by rw [h], rfl, sha1Hexdigest_length u1, sha1Hexdigest_mem u1, ?_⟩
  intro fs1 fs2 des p hurl hdir hfile hread
  unfold load_cached_token
  rw [hurl, hdir]
  simp only [hfile, hread]

/-- Witness for C7 at the start URL of the end-to-end scenario. -/
theorem c7_cache_filename_sha1_witness :
    cacheFilename "https://example.awsapps.com/start" =
      sha1Hexdigest "https://example.awsapps.com/start" ++ ".json" ∧
    (sha1Hexdigest "https://example.awsapps.com/start").length = 40 :=
  ⟨(c7_cache_filename_sha1 "https://example.awsapps.com/start"
      "https://example.awsapps.com/start" rfl).2.1,
   (c7_cache_filename_sha1 "https://example.awsapps.com/start"
      "https://example.awsapps.com/start" rfl).2.2.1⟩

/-! ## Claim C5: profile resolution -/

/-- C5: resolving an absent profile fails with an error carrying the
requested name; a present profile missing a required attribute fails
with the error naming that attribute (the checks run in the source
order region, sso_account_id, sso_region, sso_role_name,
sso_start_url); a fully populated profile resolves to the pure
projection of the five looked-up values plus the profile name. -/
theorem c5_profile_resolution (profiles : ProfileSet) (name : String) (p : ConfigProfile) :
    (profiles.getProfile name = none →
      get_sso_profile profiles name =
        .error ("profile " ++ squote ++ name ++ squote ++ " not found")) ∧
    (profiles.getProfile name = some p →
      ((p.get "region" = none →
          get_sso_profile profiles name =
            .error ("profile must have " ++ "region" ++ " property set")) ∧
       (∀ r, p.get "region" = some r → p.get "sso_account_id" = none →
          get_sso_profile profiles name =
            .error ("profile must have " ++ "sso_account_id" ++ " property set")) ∧
       (∀ r a, p.get "region" = some r → p.get "sso_account_id" = some a →
          p.get "sso_region" = none →
          get_sso_profile profiles name =
            .error ("profile must have " ++ "sso_region" ++ " property set")) ∧
       (∀ r a s, p.get "region" = some r → p.get "sso_account_id" = some a →
          p.get "sso_region" = some s → p.get "sso_role_name" = none →
          get_sso_profile profiles name =
            .error ("profile must have " ++ "sso_role_name" ++ " property set")) ∧
       (∀ r a s rn, p.get "region" = some r → p.get "sso_account_id" = some a →
          p.get "sso_region" = some s → p.get "sso_role_name" = some rn →
          p.get "sso_start_url" = none →
          get_sso_profile profiles name =
            .error ("profile must have " ++ "sso_start_url" ++ " property set")) ∧
       (∀ r a s rn u, p.get "region" = some r → p.get "sso_account_id" = some a →
          p.get "sso_region" = some s → p.get "sso_role_name" = some rn →
          p.get "sso_start_url" = some u →
          get_sso_profile profiles name = .ok ⟨name, r, a, s, rn, u⟩))) := by
  constructor
  · intro h
    simp only [get_sso_profile, h]
  · intro h
    refine ⟨?_, ?_, ?_, ?_, ?_, ?_⟩
    · intro h1; simp only [get_sso_profile, h, h1]; rfl
    · intro r h1 h2; simp only [get_sso_profile, h, h1, h2]; rfl
    · intro r a h1 h2 h3; simp only [get_sso_profile, h, h1, h2, h3]; rfl
    · intro r a s h1 h2 h3 h4; simp only [get_sso_profile, h, h1, h2, h3, h4]; rfl
    · intro r a s rn h1 h2 h3 h4 h5
      simp only [get_sso_profile, h, h1, h2, h3, h4, h5]; rfl
    · intro r a s rn u h1 h2 h3 h4 h5
      simp only [get_sso_profile, h, h1, h2, h3, h4, h5]

/-- Witness for C5: an empty store, a store whose profile stops at
region, and the fully populated fixture. -/
theorem c5_profile_resolution_witness :
    get_sso_profile [] "dev" =
      .error ("profile " ++ squote ++ "dev" ++ squote ++ " not found") ∧
    get_sso_profile [("dev", [("region", "us-east-1")])] "dev" =
      .error ("profile must have " ++ "sso_account_id" ++ " property set") ∧
    get_sso_profile devStore "dev" = .ok devSsoProfile := by
  refine ⟨?_, ?_, ?_⟩
  · exact (c5_profile_resolution [] "dev" []).1 rfl
  · exact ((c5_profile_resolution [("dev", [("region", "us-east-1")])] "dev"
      [("region", "us-east-1")]).2 rfl).2.1 "us-east-1" rfl rfl
  · exact ((c5_profile_resolution devStore "dev" devProfile).2 rfl).2.2.2.2.2
      "us-east-1" "123456789012" "us-east-1" "Admin"
      "https://example.awsapps.com/start" rfl rfl rfl rfl rfl

/-! ## Claim C3: malformed cache content vs absent cache file -/

/-- C3: a cache file that exists but fails to deserialize yields the
malformed outcome (no token, an error-level log carrying the parse
detail), which differs from the absent outcome (no token, a debug-level
diagnostic); neither raises past the caller, and `main` ends with
`Ok(())` on every tokenless load. -/
theorem c3_cache_malformed_vs_absent (fs : CacheFs)
    (des : String → Except String CachedSsoToken)
    (p : SsoProfile) (s e : String) :
    (fs.cacheDirIsDir = true →
      fs.isFile (cacheFilename p.sso_start_url) = true →
      fs.readToString (cacheFilename p.sso_start_url) = some s →
      des s = .error e →
      load_cached_token fs des p =
        (none, [.error ("Unable to deserialize cached SSO token: " ++ e)])) ∧
    (fs.cacheDirIsDir = true →
      fs.isFile (cacheFilename p.sso_start_url) = false →
      load_cached_token fs des p =
        (none, [.debug ("Cache file for profile " ++ squote ++ p.profile_name ++
                        squote ++ " does not exist.")])) ∧
    ((none, [LogEvent.error ("Unable to deserialize cached SSO token: " ++ e)]) ≠
      ((none, [LogEvent.debug ("Cache file for profile " ++ squote ++ p.profile_name ++
                squote ++ " does not exist.")]) :
        Option CachedSsoToken × List LogEvent)) ∧
    (∀ w pn lg, get_sso_profile w.profiles pn = .ok p →
      load_cached_token w.fs w.deserializeToken p = (none, lg) →
      (mainRun w pn).exit = .ok ()) := by
  refine ⟨?_, ?_, ?_, ?_⟩
  · intro h1 h2 h3 h4
    simp only [load_cached_token, h1, h2, h3, h4, Bool.not_true, Bool.false_eq_true,
      if_false]
  · intro h1 h2
    simp only [load_cached_token, h1, h2, Bool.not_true, Bool.not_false,
      Bool.false_eq_true, if_false, if_true]
  · simp
  · intro w pn lg h1 h2
    simp only [mainRun, h1, h2]

/-- Witness for C3 on the malformed fixture world. -/
theorem c3_cache_malformed_vs_absent_witness :
    load_cached_token okFs (fun _ => .error "expected value at line 1") devSsoProfile =
      (none, [.error ("Unable to deserialize cached SSO token: " ++
                      "expected value at line 1")]) ∧
    (mainRun malformedWorld "dev").exit = .ok () :=
  ⟨(c3_cache_malformed_vs_absent okFs (fun _ => .error "expected value at line 1")
      devSsoProfile "cached" "expected value at line 1").1 rfl rfl rfl rfl,
   (c3_cache_malformed_vs_absent okFs (fun _ => .error "expected value at line 1")
      devSsoProfile "cached" "expected value at line 1").2.2.2 malformedWorld "dev"
      [.error ("Unable to deserialize cached SSO token: " ++ "expected value at line 1")]
      rfl rfl⟩

/-! ## Claim C1: expiry boundary -/

/-- C1 as stated is false of the code: on `tieWorld` the current instant
equals the parsed expires_at, yet the program classifies the token as
still valid, performs the remote fetch and prints export lines (the
check at src/main.rs line 96 is `now_utc() > expires_at`, so the tie
falls on the fresh side). -/
theorem c1_counterexample :
    tieWorld.parseRfc3339 devToken.expires_at = some tieWorld.now ∧
    (mainRun tieWorld "dev").fetchOutcome.isSome = true ∧
    (mainRun tieWorld "dev").stdout ≠ [] := by
  refine ⟨rfl, rfl, ?_⟩
  decide

/-- C1 amended: the expiry comparison is strict in the other direction;
a token whose expires_at equals the current instant is treated as still
fresh, and the pipeline proceeds to fetch credentials exactly when the
current instant is less than or equal to the parsed expires_at. -/
theorem c1_expiry_boundary (w : World) (pn : String) (p : SsoProfile)
    (t : CachedSsoToken) (lg : List LogEvent) (e : Int) (enc : String)
    (hp : get_sso_profile w.profiles pn = .ok p)
    (hl : load_cached_token w.fs w.deserializeToken p = (some t, lg))
    (hparse : w.parseRfc3339 t.expires_at = some e)
    (hfmt : w.formatRfc3339 e = some enc) :
    (mainRun w pn).fetchOutcome.isSome = true ↔ w.now ≤ e := by
  by_cases hnow : w.now > e
  · simp only [mainRun, hp, hl, hparse, hfmt, if_pos hnow]
    simp only [Option.isSome_none, Bool.false_eq_true, false_iff]
    omega
  · simp only [mainRun, hp, hl, hparse, hfmt, if_neg hnow]
    cases hres : fetch_sso_credentials w.response p t <;>
      simp only [hres, Option.isSome_some, true_iff] <;> omega

/-- Witness for the amended C1 at `okWorld` (clock 0, expiry 100). -/
theorem c1_expiry_boundary_witness :
    (mainRun okWorld "dev").fetchOutcome.isSome = true ↔ okWorld.now ≤ 100 :=
  c1_expiry_boundary okWorld "dev" devSsoProfile devToken [] 100
    "2026-01-01T00:00:00Z" rfl rfl rfl rfl

/-! ## Claim C8: cached token with an unparseable timestamp -/

/-- C8: when the cached token loads but its expires_at string fails to
parse, the run ends with `Ok(())`, prints nothing to standard output and
performs no remote fetch (the `if let Ok(...)` at src/main.rs line 93
silently skips the whole block). -/
theorem c8_unparseable_expiry (w : World) (pn : String) (p : SsoProfile)
    (t : CachedSsoToken) (lg : List LogEvent)
    (hp : get_sso_profile w.profiles pn = .ok p)
    (hl : load_cached_token w.fs w.deserializeToken p = (some t, lg))
    (hparse : w.parseRfc3339 t.expires_at = none) :
    (mainRun w pn).exit = .ok () ∧
    (mainRun w pn).stdout = [] ∧
    (mainRun w pn).fetchOutcome = none := by
  simp [mainRun, hp, hl, hparse]

/-- Witness for C8 on the fixture whose RFC3339 parser always fails. -/
theorem c8_unparseable_expiry_witness :
    (mainRun noParseWorld "dev").exit = .ok () ∧
    (mainRun noParseWorld "dev").stdout = [] ∧
    (mainRun noParseWorld "dev").fetchOutcome = none :=
  c8_unparseable_expiry noParseWorld "dev" devSsoProfile devToken [] rfl rfl rfl

/-! ## Claim C2: standard-output contract -/

/-- C2: on every execution, either the fetch succeeded and standard
output is exactly the comment line followed by the three export lines in
the fixed order and naming, or no successful fetch happened and standard
output is empty (in particular no partial export sequence ever
appears). -/
theorem c2_stdout_contract (w : World) (pn : String) :
    (∃ enc cr, (mainRun w pn).fetchOutcome = some (.ok cr) ∧
      (mainRun w pn).stdout =
        ["# expires at " ++ enc,
         "export AWS_ACCESS_KEY_ID=" ++ cr.access_key_id,
         "export AWS_SECRET_ACCESS_KEY=" ++ cr.secret_access_key,
         "export AWS_SESSION_TOKEN=" ++ cr.session_token]) ∨
    ((∀ cr, (mainRun w pn).fetchOutcome ≠ some (.ok cr)) ∧
      (mainRun w pn).stdout = []) := by
  rcases hp : get_sso_profile w.profiles pn with e | p
  · right; simp [mainRun, hp]
  · rcases hl : load_cached_token w.fs w.deserializeToken p with ⟨tok, lg⟩
    rcases tok with _ | t
    · right; simp [mainRun, hp, hl]
    · rcases hparse : w.parseRfc3339 t.expires_at with _ | e
      · right; simp [mainRun, hp, hl, hparse]
      · rcases hfmt : w.formatRfc3339 e with _ | enc
        · right; simp [mainRun, hp, hl, hparse, hfmt]
        · by_cases hnow : w.now > e
          · right; simp [mainRun, hp, hl, hparse, hfmt, hnow]
          · rcases hres : fetch_sso_credentials w.response p t with err | cr
            · right; simp [mainRun, hp, hl, hparse, hfmt, hnow, hres]
            · left
              exact ⟨enc, cr,
                by simp [mainRun, hp, hl, hparse, hfmt, hnow, hres],
                by simp [mainRun, hp, hl, hparse, hfmt, hnow, hres]⟩

/-! ## Claim C6: exit status taxonomy -/

/-- C6: a failed profile resolution ends with a nonzero exit status and
no output; a tokenless load (absent or malformed cache) ends with exit
status 0, no output, and the load diagnostic on the log; an expired
token ends with exit status 0, no output, and the expiry diagnostics on
the log; a failed fetch (transport error or malformed remote response)
ends with a nonzero exit status and no output; a successful fetch ends
with exit status 0. -/
theorem c6_exit_codes (w : World) (pn : String) :
    (∀ e, get_sso_profile w.profiles pn = .error e →
      exitCode (mainRun w pn) = 1 ∧ (mainRun w pn).stdout = []) ∧
    (∀ p lg, get_sso_profile w.profiles pn = .ok p →
      load_cached_token w.fs w.deserializeToken p = (none, lg) →
      exitCode (mainRun w pn) = 0 ∧ (mainRun w pn).stdout = [] ∧
      (mainRun w pn).log = LogEvent.debug "Found SSO profile" :: lg) ∧
    (∀ p t lg e enc, get_sso_profile w.profiles pn = .ok p →
      load_cached_token w.fs w.deserializeToken p = (some t, lg) →
      w.parseRfc3339 t.expires_at = some e →
      w.formatRfc3339 e = some enc →
      w.now > e →
      exitCode (mainRun w pn) = 0 ∧ (mainRun w pn).stdout = [] ∧
      (mainRun w pn).log =
        LogEvent.debug "Found SSO profile" :: lg ++
        [LogEvent.debug "Loaded cached SSO token.",
         LogEvent.error ("Cached SSO token is expired as of " ++ enc),
         LogEvent.info ("Run " ++ squote ++ "aws --profile " ++ pn ++ " sso login" ++
                        squote ++ " to refresh credentials.")]) ∧
    (∀ p t lg e enc err, get_sso_profile w.profiles pn = .ok p →
      load_cached_token w.fs w.deserializeToken p = (some t, lg) →
      w.parseRfc3339 t.expires_at = some e →
      w.formatRfc3339 e = some enc →
      ¬ w.now > e →
      fetch_sso_credentials w.response p t = .error err →
      exitCode (mainRun w pn) = 1 ∧ (mainRun w pn).stdout = []) ∧
    (∀ p t lg e enc cr, get_sso_profile w.profiles pn = .ok p →
      load_cached_token w.fs w.deserializeToken p = (some t, lg) →
      w.parseRfc3339 t.expires_at = some e →
      w.formatRfc3339 e = some enc →
      ¬ w.now > e →
      fetch_sso_credentials w.response p t = .ok cr →
      exitCode (mainRun w pn) = 0) := by
  refine ⟨?_, ?_, ?_, ?_, ?_⟩
  · intro e hp
    simp [mainRun, exitCode, hp]
  · intro p lg hp hl
    simp [mainRun, exitCode, hp, hl]
  · intro p t lg e enc hp hl hparse hfmt hnow
    simp [mainRun, exitCode, hp, hl, hparse, hfmt, hnow]
  · intro p t lg e enc err hp hl hparse hfmt hnow hres
    simp [mainRun, exitCode, hp, hl, hparse, hfmt, hnow, hres]
  · intro p t lg e enc cr hp hl hparse hfmt hnow hres
    simp [mainRun, exitCode, hp, hl, hparse, hfmt, hnow, hres]

/-- Witness for C6 across the five outcome fixtures: profile not found,
cache file absent, token expired, transport failure, full success. -/
theorem c6_exit_codes_witness :
    exitCode (mainRun notFoundWorld "dev") = 1 ∧
    exitCode (mainRun absentWorld "dev") = 0 ∧
    (mainRun absentWorld "dev").stdout = [] ∧
    exitCode (mainRun expiredWorld "dev") = 0 ∧
    (mainRun expiredWorld "dev").stdout = [] ∧
    exitCode (mainRun transportErrWorld "dev") = 1 ∧
    exitCode (mainRun okWorld "dev") = 0 := by
  refine ⟨?_, ?_, ?_, ?_, ?_, ?_, ?_⟩
  · exact ((c6_exit_codes notFoundWorld "dev").1 _ rfl).1
  · exact ((c6_exit_codes absentWorld "dev").2.1 devSsoProfile _ rfl rfl).1
  · exact ((c6_exit_codes absentWorld "dev").2.1 devSsoProfile _ rfl rfl).2.1
  · exact ((c6_exit_codes expiredWorld "dev").2.2.1 devSsoProfile devToken [] 100
      "2026-01-01T00:00:00Z" rfl rfl rfl rfl (by decide)).1
  · exact ((c6_exit_codes expiredWorld "dev").2.2.1 devSsoProfile devToken [] 100
      "2026-01-01T00:00:00Z" rfl rfl rfl rfl (by decide)).2.1
  · exact ((c6_exit_codes transportErrWorld "dev").2.2.2.1 devSsoProfile devToken [] 100
      "2026-01-01T00:00:00Z" "dispatch failure" rfl rfl rfl rfl (by decide) rfl).1
  · exact (c6_exit_codes okWorld "dev").2.2.2.2 devSsoProfile devToken [] 100
      "2026-01-01T00:00:00Z" ⟨"AKID", "SECRET", "SESSTOK", 1000000000⟩
      rfl rfl rfl rfl (by decide) rfl

/-! ## Claim C4: normalization of the remote response -/

/-- Any instant expressible as an `i64` count of nanoseconds lies inside
the `OffsetDateTime` range, so its conversion succeeds. -/
theorem fromNanos_of_i64 (n : Int) (h1 : -(2 ^ 63) ≤ n) (h2 : n < 2 ^ 63) :
    fromUnixTimestampNanos n = some n := by
  unfold fromUnixTimestampNanos
  split
  · rfl
  · exfalso
    unfold odtMinNanos odtMaxNanos at *
    omega

/-- A successful conversion returns the instant unchanged. -/
theorem fromNanos_eq_some (n v : Int) (h : fromUnixTimestampNanos n = some v) :
    v = n := by
  unfold fromUnixTimestampNanos at h
  split at h
  · injection h with h
    exact h.symm
  · cases h

/-- C4: with an `i64` expiration, the fetch yields a `Credentials` value
exactly when the reply carries role credentials with all three secret
fields; a successful fetch carries those exact field values, with the
nanosecond expiration converted to the timestamp type; each absent field
produces the error naming it (checked in the source order access key id,
secret access key, session token), and a conversion failure (possible
only outside the `i64` range) produces its own error; a reply without
role credentials also errors. -/
theorem c4_fetch_normalization (rc : RoleCredentials) (p : SsoProfile)
    (t : CachedSsoToken) :
    (-(2 ^ 63) ≤ rc.expiration → rc.expiration < 2 ^ 63 →
      ((∃ cr, fetch_sso_credentials (.ok (some rc)) p t = .ok cr) ↔
        rc.access_key_id.isSome ∧ rc.secret_access_key.isSome ∧
        rc.session_token.isSome)) ∧
    (∀ ak sk tok, rc.access_key_id = some ak → rc.secret_access_key = some sk →
      rc.session_token = some tok →
      -(2 ^ 63) ≤ rc.expiration → rc.expiration < 2 ^ 63 →
      fetch_sso_credentials (.ok (some rc)) p t = .ok ⟨ak, sk, tok, rc.expiration⟩) ∧
    (rc.access_key_id = none →
      fetch_sso_credentials (.ok (some rc)) p t =
        .error "response did not contain an access key id") ∧
    (∀ ak, rc.access_key_id = some ak → rc.secret_access_key = none →
      fetch_sso_credentials (.ok (some rc)) p t =
        .error "response did not contain a secret access key") ∧
    (∀ ak sk, rc.access_key_id = some ak → rc.secret_access_key = some sk →
      rc.session_token = none →
      fetch_sso_credentials (.ok (some rc)) p t =
        .error "response did not contain a session token") ∧
    (∀ ak sk tok, rc.access_key_id = some ak → rc.secret_access_key = some sk →
      rc.session_token = some tok → fromUnixTimestampNanos rc.expiration = none →
      fetch_sso_credentials (.ok (some rc)) p t =
        .error "unable to parse expiration date from role credentials") ∧
    (fetch_sso_credentials (.ok none) p t =
      .error "response did not contain any credentials") := by
  refine ⟨?_, ?_, ?_, ?_, ?_, ?_, rfl⟩
  · intro hlo hhi
    have hconv := fromNanos_of_i64 rc.expiration hlo hhi
    rcases rc with ⟨ak, sk, tok, exp⟩
    rcases ak with _ | a <;> rcases sk with _ | s <;> rcases tok with _ | k <;>
      simp_all [fetch_sso_credentials]
  · intro ak sk tok h1 h2 h3 hlo hhi
    have hconv := fromNanos_of_i64 rc.expiration hlo hhi
    simp [fetch_sso_credentials, h1, h2, h3, hconv]
  · intro h1
    simp [fetch_sso_credentials, h1]
  · intro ak h1 h2
    simp [fetch_sso_credentials, h1, h2]
  · intro ak sk h1 h2 h3
    simp [fetch_sso_credentials, h1, h2, h3]
  · intro ak sk tok h1 h2 h3 hconv
    simp [fetch_sso_credentials, h1, h2, h3, hconv]

/-- Witness for C4 at concrete replies: the full fixture reply, and
replies missing one field each. -/
theorem c4_fetch_normalization_witness :
    fetch_sso_credentials (.ok (some okRc)) devSsoProfile devToken =
      .ok ⟨"AKID", "SECRET", "SESSTOK", 1000000000⟩ ∧
    fetch_sso_credentials (.ok (some ⟨none, some "SECRET", some "SESSTOK", 0⟩))
        devSsoProfile devToken =
      .error "response did not contain an access key id" ∧
    fetch_sso_credentials (.ok (some ⟨some "AKID", none, some "SESSTOK", 0⟩))
        devSsoProfile devToken =
      .error "response did not contain a secret access key" ∧
    fetch_sso_credentials (.ok (some ⟨some "AKID", some "SECRET", none, 0⟩))
        devSsoProfile devToken =
      .error "response did not contain a session token" := by
  refine ⟨?_, ?_, ?_, ?_⟩
  · exact (c4_fetch_normalization okRc devSsoProfile devToken).2.1
      "AKID" "SECRET" "SESSTOK" rfl rfl rfl (by decide) (by decide)
  · exact (c4_fetch_normalization ⟨none, some "SECRET", some "SESSTOK", 0⟩
      devSsoProfile devToken).2.2.1 rfl
  · exact (c4_fetch_normalization ⟨some "AKID", none, some "SESSTOK", 0⟩
      devSsoProfile devToken).2.2.2.1 "AKID" rfl rfl
  · exact (c4_fetch_normalization ⟨some "AKID", some "SECRET", none, 0⟩
      devSsoProfile devToken).2.2.2.2.1 "AKID" "SECRET" rfl rfl rfl

/-! ## Claim C9: the printed expiry comes from the cached token -/

/-- An instant whose conversion succeeds converts to itself. -/
theorem fromNanos_isSome (n : Int)
    (h : (fromUnixTimestampNanos n).isSome = true) :
    fromUnixTimestampNanos n = some n := by
  unfold fromUnixTimestampNanos at h ⊢
  split at h
  · next hcond => rw [if_pos hcond]
  · simp at h

/-- C9: standard output is invariant under changing the expiration field
of the remote reply (as long as both instants convert), and on a
printing run the comment line is the re-encoding of the cached token's
expires_at; hence the expires_at of the fetched `Credentials` value
never reaches the output. -/
theorem c9_expiry_line (w : World) (pn : String) (rc : RoleCredentials) (e2 : Int)
    (hresp : w.response = .ok (some rc))
    (h1 : (fromUnixTimestampNanos rc.expiration).isSome = true)
    (h2 : (fromUnixTimestampNanos e2).isSome = true) :
    (mainRun { w with response := .ok (some { rc with expiration := e2 }) } pn).stdout =
      (mainRun w pn).stdout ∧
    (∀ p t lg e enc,
      get_sso_profile w.profiles pn = .ok p →
      load_cached_token w.fs w.deserializeToken p = (some t, lg) →
      w.parseRfc3339 t.expires_at = some e →
      w.formatRfc3339 e = some enc →
      (mainRun w pn).stdout ≠ [] →
      (mainRun w pn).stdout.head? = some ("# expires at " ++ enc)) := by
  constructor
  · obtain ⟨profiles, fs, des, parse, fmt, now, resp⟩ := w
    dsimp only at hresp h1 ⊢
    subst hresp
    rcases hp : get_sso_profile profiles pn with e | p
    · simp [mainRun, hp]
    · rcases hl : load_cached_token fs des p with ⟨tok, lg⟩
      rcases tok with _ | t
      · simp [mainRun, hp, hl]
      · rcases hparse : parse t.expires_at with _ | e
        · simp [mainRun, hp, hl, hparse]
        · rcases hfmt : fmt e with _ | enc
          · simp [mainRun, hp, hl, hparse, hfmt]
          · by_cases hnow : now > e
            · simp [mainRun, hp, hl, hparse, hfmt, hnow]
            · rcases rc with ⟨ak, sk, sess, exp⟩
              dsimp only at h1 ⊢
              rcases ak with _ | a
              · simp [mainRun, hp, hl, hparse, hfmt, hnow, fetch_sso_credentials]
              · rcases sk with _ | s
                · simp [mainRun, hp, hl, hparse, hfmt, hnow, fetch_sso_credentials]
                · rcases sess with _ | k
                  · simp [mainRun, hp, hl, hparse, hfmt, hnow, fetch_sso_credentials]
                  · have hc1 := fromNanos_isSome exp h1
                    have hc2 := fromNanos_isSome e2 h2
                    simp [mainRun, hp, hl, hparse, hfmt, hnow,
                          fetch_sso_credentials, hc1, hc2]
  · intro p t lg e enc hp hl hparse hfmt hne
    by_cases hnow : w.now > e
    · exact absurd (by simp [mainRun, hp, hl, hparse, hfmt, hnow]) hne
    · rcases hres : fetch_sso_credentials w.response p t with err | cr
      · exact absurd (by simp [mainRun, hp, hl, hparse, hfmt, hnow, hres]) hne
      · simp [mainRun, hp, hl, hparse, hfmt, hnow, hres]

/-- Witness for C9 at the fixture world, replacing the reply expiration
1000000000 by 42: standard output is unchanged, and the comment line
shows the cached token's re-encoded timestamp. -/
theorem c9_expiry_line_witness :
    (mainRun { okWorld with
        response := .ok (some { okRc with expiration := 42 }) } "dev").stdout =
      (mainRun okWorld "dev").stdout ∧
    (mainRun okWorld "dev").stdout.head? =
      some ("# expires at " ++ "2026-01-01T00:00:00Z") := by
  constructor
  · exact (c9_expiry_line okWorld "dev" okRc 42 rfl (by decide) (by decide)).1
  · exact (c9_expiry_line okWorld "dev" okRc 42 rfl (by decide) (by decide)).2
      devSsoProfile devToken [] 100 "2026-01-01T00:00:00Z" rfl rfl rfl rfl (by decide)

/-! ## Claim C10: zeroization of secret buffers -/

/-- C10 concerns memory hygiene the source does not implement: it
derives `Zeroize` for `CachedSsoToken` (src/main.rs line 41) and
`SsoCredentials` (line 50), signalling the scrubbing intent the spec
records, but it never calls `.zeroize()` and derives neither
`ZeroizeOnDrop` nor `#[zeroize(drop)]`, so no token or credential buffer
is overwritten on any exit path.  This theorem runs the pipeline at the
fully successful fixture and shows the secret material alive through the
end of the run, flowing unscrubbed into the output. -/
theorem c10_secrets_reach_output :
    (mainRun okWorld "dev").stdout =
      ["# expires at 2026-01-01T00:00:00Z",
       "export AWS_ACCESS_KEY_ID=AKID",
       "export AWS_SECRET_ACCESS_KEY=SECRET",
       "export AWS_SESSION_TOKEN=SESSTOK"] := by decide
